import Mathlib

/-!
Shallow embedding of the wind-energy feasibility computations of
`src/app.py` (toxic1104/windenergydashboard), with theorems checking the
natural-language specification against the code.

Python floats are modelled by exact rationals (`ℚ`); the single place where
IEEE NaN semantics is observable (the pandas mean of an empty series) is
modelled explicitly by the `PFloat` type below.
-/

/-- Rating enum produced by the recommendation block, app.py lines 91-98. -/
inductive Rating
  | EXCELLENT
  | GOOD
  | FAIR
  | POOR
deriving DecidableEq

/-- Power model of app.py lines 72-78:
`if 3 <= avg_wind <= 25: (if avg_wind <= 12: 5*(avg_wind/12)**3 else 5) else 0`. -/
def power_output (avg_wind : ℚ) : ℚ :=
  if 3 ≤ avg_wind ∧ avg_wind ≤ 25 then
    if avg_wind ≤ 12 then 5 * (avg_wind / 12) ^ 3 else 5
  else 0

/-- app.py line 80: `min(power_output / 5 * 100, 100) if power_output > 0 else 0`. -/
def capacity_factor (power : ℚ) : ℚ :=
  if power > 0 then min (power / 5 * 100) 100 else 0

/-- app.py line 81: `power_output * 24 * 365 * (capacity_factor / 100)`. -/
def annual_energy (power cf : ℚ) : ℚ :=
  power * 24 * 365 * (cf / 100)

/-- Recommendation chain of app.py lines 91-98:
`if avg_wind >= 8 ... elif >= 6 ... elif >= 4 ... else POOR`. -/
def classify (avg_wind : ℚ) : Rating :=
  if avg_wind ≥ 8 then Rating.EXCELLENT
  else if avg_wind ≥ 6 then Rating.GOOD
  else if avg_wind ≥ 4 then Rating.FAIR
  else Rating.POOR

lemma power_output_out (s : ℚ) (h : s < 3 ∨ 25 < s) : power_output s = 0 := by
  unfold power_output
  rcases h with h | h <;> rw [if_neg] <;> rintro ⟨h1, h2⟩ <;> linarith

lemma power_output_ramp (s : ℚ) (h1 : 3 ≤ s) (h2 : s ≤ 12) :
    power_output s = 5 * (s / 12) ^ 3 := by
  unfold power_output
  rw [if_pos ⟨h1, by linarith⟩, if_pos h2]

lemma power_output_plateau (s : ℚ) (h1 : 12 < s) (h2 : s ≤ 25) :
    power_output s = 5 := by
  unfold power_output
  rw [if_pos ⟨by linarith, h2⟩, if_neg (by linarith)]

/-- C1: for every wind speed s, the power model of app.py lines 72-78 gives 0
below cut-in (s < 3) and above cut-out (s > 25), the cubic ramp 5·(s/12)³ for
3 ≤ s ≤ 12, and the rated plateau 5 for 12 < s ≤ 25. -/
theorem C1_power_model (s : ℚ) :
    ((s < 3 ∨ 25 < s) → power_output s = 0) ∧
    (3 ≤ s → s ≤ 12 → power_output s = 5 * (s / 12) ^ 3) ∧
    (12 < s → s ≤ 25 → power_output s = 5) :=
  ⟨power_output_out s, power_output_ramp s, power_output_plateau s⟩

/-- C1 witness: the three regimes evaluated at the concrete speeds 2, 8 and 20. -/
theorem C1_power_model_witness :
    power_output 2 = 0 ∧ power_output 8 = 5 * ((8 : ℚ) / 12) ^ 3 ∧
    power_output 20 = 5 :=
  ⟨(C1_power_model 2).1 (Or.inl (by norm_num)),
   (C1_power_model 8).2.1 (by norm_num) (by norm_num),
   (C1_power_model 20).2.2 (by norm_num) (by norm_num)⟩

/-- C3: the recommendation chain of app.py lines 91-98 is a total function into
the four ratings, with boundaries 8, 6, 4 inclusive on the higher rating. -/
theorem C3_classify_total (w : ℚ) :
    (8 ≤ w → classify w = Rating.EXCELLENT) ∧
    (6 ≤ w → w < 8 → classify w = Rating.GOOD) ∧
    (4 ≤ w → w < 6 → classify w = Rating.FAIR) ∧
    (w < 4 → classify w = Rating.POOR) := by
  unfold classify
  refine ⟨fun h => ?_, fun h1 h2 => ?_, fun h1 h2 => ?_, fun h => ?_⟩ <;>
    split_ifs <;> first | rfl | linarith

/-- C3 witness: the boundary speeds 8, 6, 4 land on the higher rating, and 2 is POOR. -/
theorem C3_classify_total_witness :
    classify 8 = Rating.EXCELLENT ∧ classify 6 = Rating.GOOD ∧
    classify 4 = Rating.FAIR ∧ classify 2 = Rating.POOR :=
  ⟨(C3_classify_total 8).1 (by norm_num),
   (C3_classify_total 6).2.1 (by norm_num) (by norm_num),
   (C3_classify_total 4).2.2.1 (by norm_num) (by norm_num),
   (C3_classify_total 2).2.2.2 (by norm_num)⟩

lemma capacity_factor_bounds (p : ℚ) :
    0 ≤ capacity_factor p ∧ capacity_factor p ≤ 100 := by
  unfold capacity_factor
  split_ifs with h
  · constructor
    · have : 0 ≤ p / 5 * 100 := by positivity
      exact le_min this (by norm_num)
    · exact min_le_right _ _
  · norm_num

lemma power_output_bounds (s : ℚ) : 0 ≤ power_output s ∧ power_output s ≤ 5 := by
  unfold power_output
  split_ifs with h h2
  · obtain ⟨h1, _⟩ := h
    constructor
    · positivity
    · have hle : s / 12 ≤ 1 := by linarith
      have hge : (0 : ℚ) ≤ s / 12 := by linarith
      have := pow_le_one₀ hge hle (n := 3)
      nlinarith
  · norm_num
  · norm_num

/-- C7: on the ramp segment (3, 12] the power of app.py lines 73-74 is strictly
increasing: s1 < s2 there implies 5·(s1/12)³ < 5·(s2/12)³. -/
theorem C7_ramp_strict_mono (s1 s2 : ℚ) (h1 : 3 < s1) (h2 : s1 < s2) (h3 : s2 ≤ 12) :
    power_output s1 = 5 * (s1 / 12) ^ 3 ∧
    power_output s2 = 5 * (s2 / 12) ^ 3 ∧
    power_output s1 < power_output s2 := by
  have e1 := power_output_ramp s1 (by linarith) (by linarith)
  have e2 := power_output_ramp s2 (by linarith) h3
  refine ⟨e1, e2, ?_⟩
  rw [e1, e2]
  have ha : (0 : ℚ) ≤ s1 / 12 := by linarith
  have hb : s1 / 12 < s2 / 12 := by linarith
  have := pow_lt_pow_left₀ hb ha (n := 3) (by norm_num)
  linarith

/-- C7 witness: the ramp is strictly increasing at the concrete pair 4 < 6. -/
theorem C7_ramp_strict_mono_witness : power_output 4 < power_output 6 :=
  (C7_ramp_strict_mono 4 6 (by norm_num) (by norm_num) (by norm_num)).2.2

/-- C8: for every input speed the computed power lies in [0, 5] and the derived
capacity factor (app.py line 80) lies in [0, 100]. -/
theorem C8_power_and_cf_bounds (s : ℚ) :
    0 ≤ power_output s ∧ power_output s ≤ 5 ∧
    0 ≤ capacity_factor (power_output s) ∧ capacity_factor (power_output s) ≤ 100 :=
  ⟨(power_output_bounds s).1, (power_output_bounds s).2,
   (capacity_factor_bounds (power_output s)).1,
   (capacity_factor_bounds (power_output s)).2⟩

/-- C9: for avg_wind = 8 the chain of app.py lines 70-98 gives power
40/27 ≈ 1.481 kW, capacity factor 800/27 ≈ 29.6 %, annual energy
2803200/729 ≈ 3846 kWh (within 1 kWh), and rating EXCELLENT. -/
theorem C9_scenario_avg8 :
    power_output 8 = 40 / 27 ∧ |(40 / 27 : ℚ) - 1.481| < 1 / 1000 ∧
    capacity_factor (power_output 8) = 800 / 27 ∧ |(800 / 27 : ℚ) - 29.6| < 1 / 10 ∧
    annual_energy (power_output 8) (capacity_factor (power_output 8)) = 2803200 / 729 ∧
    |(2803200 / 729 : ℚ) - 3846| < 1 ∧
    classify 8 = Rating.EXCELLENT := by
  refine ⟨?_, by norm_num [abs_lt], ?_, by norm_num [abs_lt],
    ?_, by norm_num [abs_lt], by norm_num [classify]⟩ <;>
    norm_num [power_output, capacity_factor, annual_energy]

/-- app.py line 102: fixed month labels. -/
def months : List String :=
  ["Jan", "Feb", "Mar", "Apr", "May", "Jun", "Jul", "Aug", "Sep", "Oct", "Nov", "Dec"]

/-- app.py line 103: fixed seasonal multipliers. -/
def seasonal_multipliers : List ℚ :=
  [1.15, 1.10, 1.05, 0.95, 0.85, 0.80, 0.75, 0.80, 0.90, 1.00, 1.05, 1.10]

/-- app.py line 104: `avg_wind * m + random.uniform(-0.3, 0.3)` per multiplier;
the random draws are passed in explicitly as a jitter list. -/
def monthly_speeds (avg_wind : ℚ) (jitter : List ℚ) : List ℚ :=
  List.zipWith (fun m j => avg_wind * m + j) seasonal_multipliers jitter

/-- Inline power expression of app.py line 105:
`5 * (s/12)**3 if 3 <= s <= 12 else (5 if 12 < s <= 25 else 0)`. -/
def monthly_power_formula (s : ℚ) : ℚ :=
  if 3 ≤ s ∧ s ≤ 12 then 5 * (s / 12) ^ 3
  else if 12 < s ∧ s ≤ 25 then 5
  else 0

/-- app.py line 105: the list comprehension over the monthly speeds. -/
def monthly_power (avg_wind : ℚ) (jitter : List ℚ) : List ℚ :=
  (monthly_speeds avg_wind jitter).map monthly_power_formula

/-- C2 counterexample: with avg_wind = 30 and zero jitter the January speed is
34.5 > 25, and the power computed by app.py line 105 for it is 0, not the
rated 5: the seasonal path does apply the 25 m/s cut-out. -/
theorem C2_counterexample :
    (monthly_speeds 30 (List.replicate 12 0)).head? = some (69 / 2) ∧
    (25 : ℚ) < 69 / 2 ∧
    (monthly_power 30 (List.replicate 12 0)).head? = some 0 ∧
    (monthly_power 30 (List.replicate 12 0)).head? ≠ some 5 := by
  refine ⟨?_, by norm_num, ?_, ?_⟩ <;>
    simp [monthly_speeds, monthly_power, seasonal_multipliers,
      monthly_power_formula] <;> norm_num

/-- C2 amended: the inline power expression of app.py line 105 agrees with the
main power model of lines 72-78 at every speed; in particular it applies the
25 m/s cut-out, giving power 0 (not the rated output) for s > 25. -/
theorem C2_seasonal_matches_main (s : ℚ) :
    monthly_power_formula s = power_output s ∧
    (25 < s → monthly_power_formula s = 0) := by
  constructor
  · unfold monthly_power_formula power_output
    rcases le_or_lt 3 s with h3 | h3
    · rcases le_or_lt s 12 with h12 | h12
      · rw [if_pos ⟨h3, h12⟩, if_pos ⟨h3, by linarith⟩, if_pos h12]
      · rcases le_or_lt s 25 with h25 | h25
        · rw [if_neg (by rintro ⟨_, hh⟩; linarith), if_pos ⟨h12, h25⟩,
            if_pos ⟨h3, h25⟩, if_neg (by linarith)]
        · rw [if_neg (show ¬(3 ≤ s ∧ s ≤ 12) by rintro ⟨_, hh⟩; linarith),
            if_neg (show ¬(12 < s ∧ s ≤ 25) by rintro ⟨_, hh⟩; linarith),
            if_neg (show ¬(3 ≤ s ∧ s ≤ 25) by rintro ⟨_, hh⟩; linarith)]
    · rw [if_neg (show ¬(3 ≤ s ∧ s ≤ 12) by rintro ⟨hh, _⟩; linarith),
        if_neg (show ¬(12 < s ∧ s ≤ 25) by rintro ⟨hh, _⟩; linarith),
        if_neg (show ¬(3 ≤ s ∧ s ≤ 25) by rintro ⟨hh, _⟩; linarith)]
  · intro h
    unfold monthly_power_formula
    rw [if_neg (by rintro ⟨_, _⟩; linarith), if_neg (by rintro ⟨_, _⟩; linarith)]

/-- C2 amended witness: at the concrete speed 26 the inline expression agrees
with the main model and yields 0. -/
theorem C2_seasonal_matches_main_witness :
    monthly_power_formula 26 = power_output 26 ∧ monthly_power_formula 26 = 0 :=
  ⟨(C2_seasonal_matches_main 26).1, (C2_seasonal_matches_main 26).2 (by norm_num)⟩

lemma monthly_power_formula_bounds (s : ℚ) :
    0 ≤ monthly_power_formula s ∧ monthly_power_formula s ≤ 5 := by
  unfold monthly_power_formula
  split_ifs with h1 h2
  · obtain ⟨ha, hb⟩ := h1
    constructor
    · positivity
    · have hle : s / 12 ≤ 1 := by linarith
      have hge : (0 : ℚ) ≤ s / 12 := by linarith
      have := pow_le_one₀ hge hle (n := 3)
      nlinarith
  · norm_num
  · norm_num

/-- C10: for every avg_wind ≥ 0 and every length-12 jitter list with entries in
[-0.3, 0.3], the seasonal projection of app.py lines 102-105 yields exactly 12
monthly power values, each in [0, 5], against the fixed month labels Jan..Dec. -/
theorem C10_projection_invariant (avg_wind : ℚ) (jitter : List ℚ)
    (h0 : 0 ≤ avg_wind) (hlen : jitter.length = 12)
    (hj : ∀ j ∈ jitter, -(3 / 10) ≤ j ∧ j ≤ 3 / 10) :
    months.length = 12 ∧
    months = ["Jan", "Feb", "Mar", "Apr", "May", "Jun",
              "Jul", "Aug", "Sep", "Oct", "Nov", "Dec"] ∧
    (monthly_speeds avg_wind jitter).length = 12 ∧
    (monthly_power avg_wind jitter).length = 12 ∧
    ∀ p ∈ monthly_power avg_wind jitter, 0 ≤ p ∧ p ≤ 5 := by
  have hsl : (monthly_speeds avg_wind jitter).length = 12 := by
    simp [monthly_speeds, hlen, seasonal_multipliers]
  refine ⟨rfl, rfl, hsl, by simp [monthly_power, hsl], ?_⟩
  intro p hp
  obtain ⟨s, _, rfl⟩ := List.mem_map.mp hp
  exact monthly_power_formula_bounds s

/-- C10 witness: the projection at avg_wind = 8 with zero jitter has 12 monthly
power values and its first value lies in [0, 5]. -/
theorem C10_projection_invariant_witness :
    (monthly_power 8 (List.replicate 12 0)).length = 12 ∧
    (0 : ℚ) ≤ 5 * ((8 * 1.15 + 0) / 12) ^ 3 ∧ 5 * ((8 * 1.15 + 0 : ℚ) / 12) ^ 3 ≤ 5 := by
  have h := C10_projection_invariant 8 (List.replicate 12 0) (by norm_num)
    (by simp) (by intro j hj; rw [List.eq_of_mem_replicate hj]; norm_num)
  refine ⟨h.2.2.2.1, ?_, ?_⟩
  · positivity
  · have hb := h.2.2.2.2 (5 * ((8 * 1.15 + 0) / 12) ^ 3) ?_
    · exact hb.2
    · simp [monthly_power, monthly_speeds, seasonal_multipliers,
        monthly_power_formula]
      norm_num

/-- app.py lines 123-126: fixed cost constants. -/
def turbine_cost : ℚ := 25000

def installation_cost : ℚ := 15000

def maintenance_yearly : ℚ := 1000

def electricity_price : ℚ := 0.12

/-- EconomicSummary record, app.py lines 128-137; `payback_period = none`
models the `float("inf")` assigned when profit is not positive. -/
structure EconomicSummary where
  total_investment : ℚ
  annual_revenue : ℚ
  annual_profit : ℚ
  payback_period : Option ℚ
  roi_20_year : ℚ
deriving DecidableEq

/-- app.py lines 128-137: revenue, profit, investment, then payback and ROI. -/
def evaluate (annual_energy_kwh : ℚ) : EconomicSummary :=
  let annual_revenue := annual_energy_kwh * electricity_price
  let annual_profit := annual_revenue - maintenance_yearly
  let total_investment := turbine_cost + installation_cost
  if annual_profit > 0 then
    { total_investment := total_investment
      annual_revenue := annual_revenue
      annual_profit := annual_profit
      payback_period := some (total_investment / annual_profit)
      roi_20_year := ((annual_profit * 20) - total_investment) / total_investment * 100 }
  else
    { total_investment := total_investment
      annual_revenue := annual_revenue
      annual_profit := annual_profit
      payback_period := none
      roi_20_year := -100 }

/-- C4: for every annual energy e ≥ 0, app.py lines 123-137 give investment
40000, revenue e·0.12, profit e·0.12 − 1000; when the profit is positive,
payback 40000/profit and ROI ((profit·20) − 40000)/40000·100, otherwise no
finite payback and ROI −100; in particular evaluate 0 has no finite payback
and ROI −100. -/
theorem C4_economic_model (e : ℚ) (he : 0 ≤ e) :
    (evaluate e).total_investment = 40000 ∧
    (evaluate e).annual_revenue = e * (12 / 100) ∧
    (evaluate e).annual_profit = e * (12 / 100) - 1000 ∧
    (e * (12 / 100) - 1000 > 0 →
      (evaluate e).payback_period = some (40000 / (e * (12 / 100) - 1000)) ∧
      (evaluate e).roi_20_year =
        (((e * (12 / 100) - 1000) * 20) - 40000) / 40000 * 100) ∧
    (¬ e * (12 / 100) - 1000 > 0 →
      (evaluate e).payback_period = none ∧ (evaluate e).roi_20_year = -100) ∧
    ((evaluate 0).payback_period = none ∧ (evaluate 0).roi_20_year = -100) := by
  have h0 : (evaluate 0).payback_period = none ∧ (evaluate 0).roi_20_year = -100 := by
    norm_num [evaluate, electricity_price, turbine_cost, installation_cost,
      maintenance_yearly]
  have hp : electricity_price = 12 / 100 := by norm_num [electricity_price]
  have hmain : (evaluate e).total_investment = 40000 ∧
      (evaluate e).annual_revenue = e * (12 / 100) ∧
      (evaluate e).annual_profit = e * (12 / 100) - 1000 ∧
      (e * (12 / 100) - 1000 > 0 →
        (evaluate e).payback_period = some (40000 / (e * (12 / 100) - 1000)) ∧
        (evaluate e).roi_20_year =
          (((e * (12 / 100) - 1000) * 20) - 40000) / 40000 * 100) ∧
      (¬ e * (12 / 100) - 1000 > 0 →
        (evaluate e).payback_period = none ∧ (evaluate e).roi_20_year = -100) := by
    unfold evaluate
    rw [hp]
    simp only [turbine_cost, installation_cost, maintenance_yearly]
    split_ifs with h
    · exact ⟨by norm_num, rfl, rfl, fun _ => ⟨by norm_num, by norm_num⟩,
        fun hn => absurd h hn⟩
    · exact ⟨by norm_num, rfl, rfl, fun hpos => absurd hpos h, fun _ => ⟨rfl, rfl⟩⟩
  exact ⟨hmain.1, hmain.2.1, hmain.2.2.1, hmain.2.2.2.1, hmain.2.2.2.2, h0⟩

/-- C4 witness: at e = 0 the payback is undefined and the ROI is −100, and at
e = 10000 the profit is 200 so the payback is 200 years and the ROI is −90. -/
theorem C4_economic_model_witness :
    (evaluate 0).payback_period = none ∧ (evaluate 0).roi_20_year = -100 ∧
    (evaluate 10000).payback_period = some 200 ∧ (evaluate 10000).roi_20_year = -90 := by
  have h0 := (C4_economic_model 0 le_rfl).2.2.2.2.2
  have h1 := (C4_economic_model 10000 (by norm_num)).2.2.2.1 (by norm_num)
  refine ⟨h0.1, h0.2, ?_, ?_⟩
  · rw [h1.1]; norm_num
  · rw [h1.2]; norm_num

/-- A wind sample as built by fetch_hourly_winds (app.py lines 42-45): a
timestamp, modelled in whole hours since an epoch, and a wind speed. -/
structure WindSample where
  time : ℕ
  wind_speed : ℚ
deriving DecidableEq

/-- The calendar day a sample falls in (24 hours per day). -/
def dayOf (s : WindSample) : ℕ := s.time / 24

/-- One row of df_daily (app.py line 57): a calendar day and the mean wind
speed over that day's samples; `none` models the pandas NaN produced for a
day inside the resampled span that has no samples. -/
structure DailyAggregate where
  date : ℕ
  mean_speed : Option ℚ
deriving DecidableEq

/-- Mean of the speeds of the samples falling on day d (none for no samples). -/
def meanOn (samples : List WindSample) (d : ℕ) : Option ℚ :=
  let xs := (samples.filter (fun x => dayOf x == d)).map WindSample.wind_speed
  if xs.isEmpty then none else some (xs.sum / xs.length)

/-- Day of the earliest sample (pandas resample bins start there). -/
def loDay : List WindSample → ℕ
  | [] => 0
  | s :: rest => (rest.map dayOf).foldl min (dayOf s)

/-- Day of the latest sample (pandas resample bins end there). -/
def hiDay : List WindSample → ℕ
  | [] => 0
  | s :: rest => (rest.map dayOf).foldl max (dayOf s)

/-- app.py line 57: `df_hourly.resample("D", on="time").mean()`: one output
row per calendar day from the day of the earliest sample through the day of
the latest, each holding the mean speed of that day's samples (NaN when a day
in the span has none); an empty frame resamples to an empty frame. -/
def toDailyMeans (samples : List WindSample) : List DailyAggregate :=
  match samples with
  | [] => []
  | _ :: _ =>
    (List.range' (loDay samples) (hiDay samples + 1 - loDay samples)).map
      (fun d => ⟨d, meanOn samples d⟩)

/-- The distinct calendar days among the samples. -/
def distinctDays (samples : List WindSample) : List ℕ :=
  (samples.map dayOf).dedup

lemma foldl_min_le (l : List ℕ) (d : ℕ) : List.foldl min d l ≤ d := by
  induction l generalizing d with
  | nil => exact le_rfl
  | cons a l ih => exact le_trans (ih (min d a)) (min_le_left _ _)

lemma le_foldl_max (l : List ℕ) (d : ℕ) : d ≤ List.foldl max d l := by
  induction l generalizing d with
  | nil => exact le_rfl
  | cons a l ih => exact le_trans (le_max_left _ _) (ih (max d a))

/-- Two samples two days apart with nothing in between: they cover 2 distinct
days but pandas daily resampling emits 3 rows, the middle one with a NaN mean. -/
def gapSamples : List WindSample := [⟨0, 5⟩, ⟨48, 7⟩]

/-- C5 counterexample: gapSamples has k = 2 samples on d = 2 distinct days,
yet toDailyMeans yields 3 rows, the middle day with an undefined (NaN) mean,
so the output length is not the number of distinct days. -/
theorem C5_counterexample :
    (distinctDays gapSamples).length = 2 ∧
    (toDailyMeans gapSamples).length = 3 ∧
    toDailyMeans gapSamples =
      [⟨0, some 5⟩, ⟨1, none⟩, ⟨2, some 7⟩] := by
  refine ⟨by decide, ?_, ?_⟩ <;>
    norm_num [toDailyMeans, gapSamples, loDay, hiDay, dayOf, meanOn,
      List.range', List.filter_cons]

/-- C5 amended: toDailyMeans maps the empty input to the empty sequence, and a
non-empty input to one row per calendar day from the earliest sample's day
through the latest sample's day, in date order, each row holding the mean of
that day's samples (none when the span has a day without samples); the row
count is the day span, which equals the number of distinct days only when
those days are contiguous. -/
theorem C5_daily_resample (samples : List WindSample) (h : samples ≠ []) :
    toDailyMeans [] = [] ∧
    loDay samples ≤ hiDay samples ∧
    (toDailyMeans samples).length = hiDay samples + 1 - loDay samples ∧
    (toDailyMeans samples).map DailyAggregate.date =
      List.range' (loDay samples) (hiDay samples + 1 - loDay samples) ∧
    ∀ a ∈ toDailyMeans samples, a.mean_speed = meanOn samples a.date := by
  obtain ⟨s, rest, rfl⟩ := List.exists_cons_of_ne_nil h
  refine ⟨rfl, ?_, ?_, ?_, ?_⟩
  · exact le_trans (foldl_min_le _ _) (le_foldl_max _ _)
  · simp [toDailyMeans]
  · rw [toDailyMeans, List.map_map]
    have hc : (DailyAggregate.date ∘ fun d =>
        (⟨d, meanOn (s :: rest) d⟩ : DailyAggregate)) = id := rfl
    rw [hc, List.map_id]
  · intro a ha
    simp only [toDailyMeans, List.mem_map] at ha
    obtain ⟨d, _, rfl⟩ := ha
    rfl

/-- C5 amended witness: three samples on the contiguous days 0, 0, 1 resample
to exactly 2 rows with means 5 and 10. -/
theorem C5_daily_resample_witness :
    (toDailyMeans [⟨0, 4⟩, ⟨2, 6⟩, ⟨30, 10⟩]).length =
      hiDay [⟨0, 4⟩, ⟨2, 6⟩, ⟨30, 10⟩] + 1 - loDay [⟨0, 4⟩, ⟨2, 6⟩, ⟨30, 10⟩] ∧
    toDailyMeans [⟨0, 4⟩, ⟨2, 6⟩, ⟨30, 10⟩] = [⟨0, some 5⟩, ⟨1, some 10⟩] :=
  ⟨(C5_daily_resample [⟨0, 4⟩, ⟨2, 6⟩, ⟨30, 10⟩] (by decide)).2.2.1, by
    norm_num [toDailyMeans, loDay, hiDay, dayOf, meanOn, List.range',
      List.filter_cons]
    intro h
    exact absurd h (by simp)⟩

/-- Python float values as far as this code observes them: a numeric value or
NaN. In Python every ordered comparison involving NaN is False. -/
inductive PFloat
  | num (q : ℚ)
  | nan
deriving DecidableEq

/-- app.py line 70: `df_hourly["wind_speed"].mean()`; pandas Series.mean
returns NaN for an empty series and the arithmetic mean otherwise, raising
no error in either case. -/
def seriesMean (xs : List ℚ) : PFloat :=
  if xs.isEmpty then PFloat.nan else PFloat.num (xs.sum / xs.length)

/-- Error taxonomy of the Aggregator contract. -/
inductive AggError
  | EmptyInput
deriving DecidableEq

/-- Modelled from the spec: `overallMean(samples) -> float` is the arithmetic
mean of all sample speeds and fails with EmptyInput if samples is empty. No
such error path exists in src/app.py; this definition follows the spec's
words, for comparison with seriesMean. -/
def overallMeanSpec (xs : List ℚ) : Except AggError ℚ :=
  if xs.isEmpty then Except.error AggError.EmptyInput
  else Except.ok (xs.sum / xs.length)

/-- The power model of app.py lines 72-78 applied to a possibly-NaN avg_wind:
in Python every comparison with NaN is False, so for NaN the guard
`3 <= avg_wind <= 25` fails and the else branch assigns power 0. -/
def power_output_nan : PFloat → ℚ
  | PFloat.num s => power_output s
  | PFloat.nan => 0

/-- C6 counterexample: on the empty sample list the code's mean is the NaN
float value, not a raised EmptyInput error — the analysis continues and the
power computation maps the NaN mean to 0 — whereas the spec-modelled
overallMean fails with EmptyInput. -/
theorem C6_counterexample :
    seriesMean [] = PFloat.nan ∧
    power_output_nan (seriesMean []) = 0 ∧
    overallMeanSpec [] = Except.error AggError.EmptyInput :=
  ⟨rfl, rfl, rfl⟩

/-- C6 amended: the code's overall mean is the arithmetic mean of all sample
speeds for every non-empty sample list; on the empty list it does not fail
but evaluates to NaN, which the downstream power computation sends to 0. -/
theorem C6_overall_mean (xs : List ℚ) :
    (xs ≠ [] → seriesMean xs = PFloat.num (xs.sum / xs.length)) ∧
    (xs = [] → seriesMean xs = PFloat.nan ∧ power_output_nan (seriesMean xs) = 0) := by
  constructor
  · intro h
    unfold seriesMean
    rw [if_neg (by simpa using h)]
  · rintro rfl
    exact ⟨rfl, rfl⟩

/-- C6 amended witness: the mean of the two speeds 2 and 4 is the number 3. -/
theorem C6_overall_mean_witness :
    seriesMean [2, 4] = PFloat.num (([2, 4] : List ℚ).sum / ([2, 4] : List ℚ).length) ∧
    (([2, 4] : List ℚ).sum / ([2, 4] : List ℚ).length : ℚ) = 3 :=
  ⟨(C6_overall_mean [2, 4]).1 (by decide), by norm_num [List.sum_cons]⟩
